import Mathlib

/-!
Shallow embedding of the trading-bot core of this repository.

The repository contains two parallel trade-lifecycle implementations:
  * `src/trades.py` — `open_trade` / `update_trades` over a global list
    `open_trades` of trade dicts keyed by string status values
    ("OPEN" / "CLOSED_SL" / "CLOSED_TP3");
  * `src/main.py` — `open_trade` / `check_trades` / `run_bot` over a global
    dict `active_trades` keyed by pair, with boolean hit flags
    (`TP1_hit`, `TP2_hit`, `TP3_hit`, `SL_hit`).
Numeric values are embedded as exact rationals (ℚ); Python `None` becomes
`Option`.  Directions and statuses are kept as the source's strings.
-/

namespace SignalBot

/-! ### Configuration constants (src/config.py) -/

def LOT_SIZE : ℚ := 1/10

def PARTIAL_CLOSE_RATIO : ℚ := 1/2

def EMA_FAST : ℕ := 3

def EMA_SLOW : ℕ := 6

/-! ### trades.py data model -/

/-- One entry of the `open_trades` list built by `trades.open_trade`
(src/trades.py lines 19-31).  `lot` is `config.LOT_SIZE`. -/
structure TTrade where
  pair : String
  direction : String
  entry : ℚ
  sl : ℚ
  tp1 : ℚ
  tp2 : ℚ
  tp3 : ℚ
  lot : ℚ
  status : String
  partial_closed : Bool
  moved_to_be : Bool
deriving DecidableEq, Repr

/-- The trade record built by `trades.open_trade` (src/trades.py lines 14-31).
`trades.py` reads `config.SL_VALUES['FOREX']` and `config.TP_VALUES['FOREX']`,
but `src/config.py` defines neither name, so the four table values are taken
as parameters `slF t1F t2F t3F` here. -/
def tradesNewTrade (slF t1F t2F t3F : ℚ) (pair direction : String)
    (entry_price : ℚ) : TTrade :=
  { pair := pair
    direction := direction
    entry := entry_price
    sl := if direction = "BUY" then entry_price - slF * (1/10000)
          else entry_price + slF * (1/10000)
    tp1 := if direction = "BUY" then entry_price + t1F * (1/10000)
           else entry_price - t1F * (1/10000)
    tp2 := if direction = "BUY" then entry_price + t2F * (1/10000)
           else entry_price - t2F * (1/10000)
    tp3 := if direction = "BUY" then entry_price + t3F * (1/10000)
           else entry_price - t3F * (1/10000)
    lot := LOT_SIZE
    status := "OPEN"
    partial_closed := false
    moved_to_be := false }

/-- `trades.open_trade` in TEST mode (src/trades.py lines 33-34): the new
record is appended to the `open_trades` list unconditionally. -/
def tradesOpenTrade (slF t1F t2F t3F : ℚ) (pair direction : String)
    (entry_price : ℚ) (open_trades : List TTrade) : List TTrade :=
  open_trades ++ [tradesNewTrade slF t1F t2F t3F pair direction entry_price]

/-- Stop-loss condition of `trades.update_trades` (src/trades.py lines 67-68). -/
def tradesSlCond (t : TTrade) (p : ℚ) : Prop :=
  (t.direction = "BUY" ∧ p ≤ t.sl) ∨ (t.direction = "SELL" ∧ t.sl ≤ p)

instance (t : TTrade) (p : ℚ) : Decidable (tradesSlCond t p) := by
  unfold tradesSlCond; infer_instance

/-- TP1 partial-close block of `trades.update_trades`
(src/trades.py lines 73-78): sets the `partial_closed` flag only. -/
def tradesTp1Stage (t : TTrade) (p : ℚ) : TTrade :=
  if t.partial_closed = false ∧
     ((t.direction = "BUY" ∧ t.tp1 ≤ p) ∨ (t.direction = "SELL" ∧ p ≤ t.tp1))
  then { t with partial_closed := true } else t

/-- TP2 breakeven block of `trades.update_trades`
(src/trades.py lines 80-86): moves `sl` to `entry`. -/
def tradesTp2Stage (t : TTrade) (p : ℚ) : TTrade :=
  if t.moved_to_be = false ∧
     ((t.direction = "BUY" ∧ t.tp2 ≤ p) ∨ (t.direction = "SELL" ∧ p ≤ t.tp2))
  then { t with sl := t.entry, moved_to_be := true } else t

/-- TP3 full-close block of `trades.update_trades`
(src/trades.py lines 88-92). -/
def tradesTp3Stage (t : TTrade) (p : ℚ) : TTrade :=
  if (t.direction = "BUY" ∧ t.tp3 ≤ p) ∨ (t.direction = "SELL" ∧ p ≤ t.tp3)
  then { t with status := "CLOSED_TP3" } else t

/-- One iteration of the `trades.update_trades` loop body for a single trade
(src/trades.py lines 58-92): skip non-OPEN trades and missing prices; the
stop-loss check runs first and `continue`s past all target checks. -/
def tradesUpdateStep (t : TTrade) (price : Option ℚ) : TTrade :=
  if t.status ≠ "OPEN" then t
  else
    match price with
    | none => t
    | some p =>
      if tradesSlCond t p then { t with status := "CLOSED_SL" }
      else tradesTp3Stage (tradesTp2Stage (tradesTp1Stage t p) p) p

/-- `trades.update_trades` applied to every trade of the list with a price
map (src/trades.py lines 56-92). -/
def tradesUpdateTrades (prices : String → Option ℚ) (ts : List TTrade) :
    List TTrade :=
  ts.map fun t => tradesUpdateStep t (prices t.pair)

/-- Feeding one trade a whole sequence of price updates. -/
def tradesUpdateRun (t : TTrade) (ps : List (Option ℚ)) : TTrade :=
  ps.foldl tradesUpdateStep t

/-! ### main.py data model -/

/-- One entry of the `active_trades` dict built by `main.open_trade`
(src/main.py lines 529-543).  The wall-clock `Entry_Time` string and the
`mode` tag (used only for console suggestions) are not modelled. -/
structure MTrade where
  Pair : String
  Signal : String
  Entry : ℚ
  TP1 : ℚ
  TP2 : ℚ
  TP3 : ℚ
  SL : ℚ
  TP1_hit : Bool
  TP2_hit : Bool
  TP3_hit : Bool
  SL_hit : Bool
deriving DecidableEq, Repr

/-- `needle` occurs as a prefix of `hay` (Python `str.startswith` on the
character level). -/
def charsStart : List Char → List Char → Bool
  | [], _ => true
  | _ :: _, [] => false
  | a :: as, b :: bs => a = b && charsStart as bs

/-- Python's `needle in hay` substring test on the character level. -/
def charsContain (hay needle : List Char) : Bool :=
  charsStart needle hay ||
    match hay with
    | [] => false
    | _ :: t => charsContain t needle

/-- Python `str.upper()` on the character level. -/
def charsUpper (s : String) : List Char :=
  s.toList.map Char.toUpper

/-- Python `str.endswith` on the character level. -/
def charsEnd (hay needle : List Char) : Bool :=
  charsStart needle.reverse hay.reverse

/-- The inline pip-unit selection of `main.open_trade`
(src/main.py lines 509-515): `'JPY' in pair.upper()` gives 0.01,
`pair == 'GC=F' or 'XAU' in pair.upper() or 'GOLD' in pair.upper()`
gives 0.1, anything else 0.0001.  Note the `GC=F` comparison is against the
original, un-uppercased `pair`, exactly as in the source. -/
def mainPipUnit (pair : String) : ℚ :=
  let pair_upper := charsUpper pair
  if charsContain pair_upper "JPY".toList then 1/100
  else if pair = "GC=F" ∨ charsContain pair_upper "XAU".toList ∨
          charsContain pair_upper "GOLD".toList then 1/10
  else 1/10000

/-- `main.detect_pip_unit` (src/main.py lines 300-307): returns
`(pip_unit, pip_factor)`; here the pair is uppercased first and JPY is
detected with `str.endswith`. -/
def detect_pip_unit (pair : String) : ℚ × ℚ :=
  let p := charsUpper pair
  if charsEnd p "JPY".toList then (1/100, 100)
  else if p = "GC=F".toList ∨ charsContain p "XAU".toList ∨
          charsContain p "GOLD".toList then (1/10, 10)
  else (1/10000, 10000)

/-- `main.open_trade` (src/main.py lines 507-543): if an ATR value is
available the level increments are `atr, atr*2, atr*3, atr*1.25`;
otherwise the passed per-pair pip counts (default `40/80/120/50`) scaled
by the pip unit.  The record overwrites `active_trades[pair]`
unconditionally; the duplicate-open guard lives in `run_bot`. -/
def mainOpenTrade (pair signal : String) (current_price : ℚ)
    (atr : Option ℚ) (tp1 tp2 tp3 sl : Option ℚ) : MTrade :=
  let pip_unit := mainPipUnit pair
  let v :=
    match atr with
    | some a => (a, a * 2, a * 3, a * (5/4))
    | none => (tp1.getD 40 * pip_unit, tp2.getD 80 * pip_unit,
               tp3.getD 120 * pip_unit, sl.getD 50 * pip_unit)
  { Pair := pair
    Signal := signal
    Entry := current_price
    TP1 := if signal = "BUY" then current_price + v.1 else current_price - v.1
    TP2 := if signal = "BUY" then current_price + v.2.1
           else current_price - v.2.1
    TP3 := if signal = "BUY" then current_price + v.2.2.1
           else current_price - v.2.2.1
    SL := if signal = "BUY" then current_price - v.2.2.2
          else current_price + v.2.2.2
    TP1_hit := false
    TP2_hit := false
    TP3_hit := false
    SL_hit := false }

/-- TP1 block of `main.check_trades` (src/main.py lines 639-645). -/
def mainHit1Stage (m : MTrade) (p : ℚ) : MTrade :=
  if m.TP1_hit = false ∧
     ((m.Signal = "BUY" ∧ m.TP1 ≤ p) ∨ (m.Signal = "SELL" ∧ p ≤ m.TP1))
  then { m with TP1_hit := true } else m

/-- TP2 block of `main.check_trades` (src/main.py lines 647-653).
It only marks the flag; the stop-loss field is never moved. -/
def mainHit2Stage (m : MTrade) (p : ℚ) : MTrade :=
  if m.TP2_hit = false ∧
     ((m.Signal = "BUY" ∧ m.TP2 ≤ p) ∨ (m.Signal = "SELL" ∧ p ≤ m.TP2))
  then { m with TP2_hit := true } else m

/-- TP3 block of `main.check_trades` (src/main.py lines 655-658). -/
def mainHit3Stage (m : MTrade) (p : ℚ) : MTrade :=
  if m.TP3_hit = false ∧
     ((m.Signal = "BUY" ∧ m.TP3 ≤ p) ∨ (m.Signal = "SELL" ∧ p ≤ m.TP3))
  then { m with TP3_hit := true } else m

/-- Stop-loss block of `main.check_trades` (src/main.py lines 660-663);
it runs after all three target blocks, with no early exit. -/
def mainSlStage (m : MTrade) (p : ℚ) : MTrade :=
  if m.SL_hit = false ∧
     ((m.Signal = "BUY" ∧ p ≤ m.SL) ∨ (m.Signal = "SELL" ∧ m.SL ≤ p))
  then { m with SL_hit := true } else m

/-- The field mutations of one `main.check_trades` call
(src/main.py lines 639-663): targets first, in order, stop-loss last. -/
def checkTradesStep (m : MTrade) (p : ℚ) : MTrade :=
  mainSlStage (mainHit3Stage (mainHit2Stage (mainHit1Stage m p) p) p) p

/-- The close condition of `main.check_trades` (src/main.py line 672):
the position is removed from `active_trades` when TP3 or the stop was hit. -/
def checkTradesCloses (m : MTrade) : Bool :=
  m.TP3_hit || m.SL_hit

/-- Feeding one position a whole sequence of price updates. -/
def checkTradesRun (m : MTrade) (ps : List ℚ) : MTrade :=
  ps.foldl checkTradesStep m

/-- The open attempt of `main.run_bot` (src/main.py lines 830-837):
`open_trade` is called only when `pair not in active_trades`; `active_trades`
is modelled as a map from pair to an optional position. -/
def runBotOpenAttempt (active : String → Option MTrade) (pair signal : String)
    (price : ℚ) (atr : Option ℚ) (tp1 tp2 tp3 sl : Option ℚ) :
    String → Option MTrade :=
  if (active pair).isSome then active
  else fun q =>
    if q = pair then some (mainOpenTrade pair signal price atr tp1 tp2 tp3 sl)
    else active q

/-! ### backtest.py target calculator -/

/-- `PARAMS["tp_atr_mult"]` of src/backtest.py line 32. -/
def tp_atr_mult : ℚ := 1

/-- `PARAMS["sl_atr_mult"]` of src/backtest.py line 33. -/
def sl_atr_mult : ℚ := 67/100

/-- The TP/SL computation of `backtest.backtest_pair`
(src/backtest.py lines 108-109): a single target at
`entry ± tp_atr_mult·atr` and a stop at `entry ∓ sl_atr_mult·atr`. -/
def backtestTpSl (entry_price : ℚ) (sig : String) (atr : ℚ) : ℚ × ℚ :=
  (if sig = "BUY" then entry_price + tp_atr_mult * atr
   else entry_price - tp_atr_mult * atr,
   if sig = "BUY" then entry_price - sl_atr_mult * atr
   else entry_price + sl_atr_mult * atr)

/-! ### Indicator pipeline

Pandas float series are embedded as exact rationals; a NaN cell becomes
`none`.  The IEEE conventions the source relies on are made explicit at each
use: comparisons with NaN are false, `x/0 = +inf` for `x > 0` (so the RSI
formula collapses to 100), and `0/0 = NaN`. -/

/-- `RSI_PERIOD` (src/signals.py line 9; also the rolling window of
src/main.py lines 360-361 and `PARAMS["rsi_period"]` of src/backtest.py). -/
def RSI_PERIOD : ℕ := 14

/-- `REQUIRED_SUSTAINED_CANDLES` (src/main.py line 265). -/
def REQUIRED_SUSTAINED_CANDLES : ℕ := 2

/-- `MIN_RSI` (src/main.py line 263). -/
def MIN_RSI : ℚ := 30

/-- `MAX_RSI` (src/main.py line 264). -/
def MAX_RSI : ℚ := 70

/-- Last value of `series.ewm(span, adjust=False).mean()` with smoothing
factor `α`: seeded at the first element, then `y ← α·x + (1−α)·y`. -/
def ewmaFold (α : ℚ) : List ℚ → Option ℚ
  | [] => none
  | x :: rest => some (rest.foldl (fun y xi => α * xi + (1 - α) * y) x)

/-- The full running series of `series.ewm(span, adjust=False).mean()`. -/
def ewmaSeries (α : ℚ) (xs : List ℚ) : List ℚ :=
  match xs with
  | [] => []
  | x :: rest => rest.scanl (fun y xi => α * xi + (1 - α) * y) x

/-- `series.diff()`: close-to-close deltas with a leading NaN. -/
def deltasOf (closes : List ℚ) : List (Option ℚ) :=
  none :: List.zipWith (fun a b => some (b - a)) closes closes.tail

/-- Last value of `series.rolling(w).mean()` over a series that may carry
NaN cells: defined only when the final window is complete and NaN-free. -/
def rollingMeanLast (w : ℕ) (xs : List (Option ℚ)) : Option ℚ :=
  if xs.length < w then none
  else
    let window := xs.drop (xs.length - w)
    if window.all Option.isSome then some (window.reduceOption.sum / (w : ℚ))
    else none

/-- Last value of `series.rolling(w).mean()` over a NaN-free series. -/
def rollingMeanLastQ (w : ℕ) (xs : List ℚ) : Option ℚ :=
  if xs.length < w then none
  else some ((xs.drop (xs.length - w)).sum / (w : ℚ))

/-- `delta.where(delta > 0, 0)` of `signals.calculate_rsi`
(src/signals.py line 57).  `where` replaces every cell whose condition is
false by 0, and `NaN > 0` is false, so the leading NaN becomes 0. -/
def signalsGain (closes : List ℚ) : List ℚ :=
  (deltasOf closes).map fun d =>
    match d with
    | none => 0
    | some x => if 0 < x then x else 0

/-- `-delta.where(delta < 0, 0)` of `signals.calculate_rsi`
(src/signals.py line 58). -/
def signalsLoss (closes : List ℚ) : List ℚ :=
  (deltasOf closes).map fun d =>
    match d with
    | none => 0
    | some x => if x < 0 then -x else 0

/-- Last value of `gain.rolling(period).mean()` (src/signals.py line 57). -/
def signalsRollGain (closes : List ℚ) : Option ℚ :=
  rollingMeanLastQ RSI_PERIOD (signalsGain closes)

/-- Last value of `loss.rolling(period).mean()` (src/signals.py line 58). -/
def signalsRollLoss (closes : List ℚ) : Option ℚ :=
  rollingMeanLastQ RSI_PERIOD (signalsLoss closes)

/-- Last value of `signals.calculate_rsi` (src/signals.py lines 55-61):
`rsi = 100 - 100/(1 + gain/loss)`.  With IEEE floats `gain/0 = +inf` for
positive gain, giving exactly 100.0, and `0/0 = NaN`, giving NaN (`none`). -/
def signalsRsiLast (closes : List ℚ) : Option ℚ :=
  match signalsRollGain closes, signalsRollLoss closes with
  | some g, some l =>
    if l = 0 then (if 0 < g then some 100 else none)
    else some (100 - 100 / (1 + g / l))
  | _, _ => none

/-- `x < c` for an optional float; false on NaN, as in IEEE comparisons. -/
def optLtB (o : Option ℚ) (c : ℚ) : Bool :=
  match o with
  | none => false
  | some x => decide (x < c)

/-- `x > c` for an optional float; false on NaN. -/
def optGtB (o : Option ℚ) (c : ℚ) : Bool :=
  match o with
  | none => false
  | some x => decide (c < x)

/-- `signals.generate_signal` (src/signals.py lines 64-93) on the close
series, for an in-session call with available data: below
`max(EMA_SLOW, RSI_PERIOD)` bars it returns `None`; otherwise EMA crossover
state plus the RSI gate decides BUY/SELL/None. -/
def signalsGenerateSignal (closes : List ℚ) : Option String :=
  if closes.length < max EMA_SLOW RSI_PERIOD then none
  else
    match ewmaFold (2 / ((EMA_FAST : ℚ) + 1)) closes,
        ewmaFold (2 / ((EMA_SLOW : ℚ) + 1)) closes with
    | some ema_fast, some ema_slow =>
      if ema_slow < ema_fast ∧ optGtB (signalsRsiLast closes) 50 = true then
        some "BUY"
      else if ema_fast < ema_slow ∧ optLtB (signalsRsiLast closes) 50 = true
      then some "SELL"
      else none
    | _, _ => none

/-- `delta.clip(lower=0)` of `main.fetch_data` (src/main.py line 359);
`clip` preserves NaN, so the leading delta stays `none`. -/
def mainUp (closes : List ℚ) : List (Option ℚ) :=
  (deltasOf closes).map (Option.map fun d => max d 0)

/-- `-1*delta.clip(upper=0)` of `main.fetch_data` (src/main.py line 359). -/
def mainDown (closes : List ℚ) : List (Option ℚ) :=
  (deltasOf closes).map (Option.map fun d => max (-d) 0)

/-- Last value of `up.rolling(14).mean()` (src/main.py line 360). -/
def mainRollUp (closes : List ℚ) : Option ℚ :=
  rollingMeanLast RSI_PERIOD (mainUp closes)

/-- Last value of `down.rolling(14).mean()` (src/main.py line 361). -/
def mainRollDown (closes : List ℚ) : Option ℚ :=
  rollingMeanLast RSI_PERIOD (mainDown closes)

/-- Last value of the RSI column of `main.fetch_data`
(src/main.py line 362): `100 - 100/(1 + roll_up/(roll_down + 1e-8))`.
The `1e-8` guard keeps the denominator positive even when the average
downward delta is zero. -/
def mainRsiLast (closes : List ℚ) : Option ℚ :=
  match mainRollUp closes, mainRollDown closes with
  | some u, some d => some (100 - 100 / (1 + u / (d + 1/100000000)))
  | _, _ => none

/-- `main.generate_signal` (src/main.py lines 384-399) composed with the
indicator columns of `main.fetch_data` (EMA spans 5 and 12, RSI as above):
below `REQUIRED_SUSTAINED_CANDLES + 5` bars it returns `None`; otherwise a
sustained EMA5/EMA12 separation over the last two bars plus the RSI band
gate decides BUY/SELL/None.  (The Python column names differ in letter case
between producer and consumer; the close series itself is modelled.) -/
def mainGenerateSignal (closes : List ℚ) : Option String :=
  if closes.length < REQUIRED_SUSTAINED_CANDLES + 5 then none
  else
    let e5 := ewmaSeries (2/6) closes
    let e12 := ewmaSeries (2/13) closes
    let n := closes.length
    let sustained_buy := (List.range REQUIRED_SUSTAINED_CANDLES).all fun i =>
      decide (e12.getD (n - 1 - i) 0 < e5.getD (n - 1 - i) 0)
    let sustained_sell := (List.range REQUIRED_SUSTAINED_CANDLES).all fun i =>
      decide (e5.getD (n - 1 - i) 0 < e12.getD (n - 1 - i) 0)
    if sustained_buy = true ∧ optLtB (mainRsiLast closes) MAX_RSI = true then
      some "BUY"
    else if sustained_sell = true ∧ optGtB (mainRsiLast closes) MIN_RSI = true
    then some "SELL"
    else none

/-- Last value of `series.ewm(alpha, adjust=False).mean()` over a series
whose only NaN is a leading one (the diff seed): pandas seeds the recursion
at the first non-NaN value. -/
def ewmNanLast (α : ℚ) (xs : List (Option ℚ)) : Option ℚ :=
  xs.foldl
    (fun st x =>
      match st, x with
      | none, some v => some v
      | some y, some v => some (α * v + (1 - α) * y)
      | st', none => st')
    none

/-- Last value of `avg_gain` in `backtest.compute_indicators`
(src/backtest.py line 50). -/
def backtestAvgGainLast (closes : List ℚ) : Option ℚ :=
  ewmNanLast (1 / (RSI_PERIOD : ℚ)) (mainUp closes)

/-- Last value of `avg_loss` in `backtest.compute_indicators`
(src/backtest.py line 51). -/
def backtestAvgLossLast (closes : List ℚ) : Option ℚ :=
  ewmNanLast (1 / (RSI_PERIOD : ℚ)) (mainDown closes)

/-- Last value of the RSI column of `backtest.compute_indicators`
(src/backtest.py lines 52-53): `avg_loss.replace(0, np.nan)` turns a zero
average loss into NaN, so the RSI cell itself becomes NaN (`none`). -/
def backtestRsiLast (closes : List ℚ) : Option ℚ :=
  match backtestAvgGainLast closes, backtestAvgLossLast closes with
  | some g, some l =>
    if l = 0 then none else some (100 - 100 / (1 + g / l))
  | _, _ => none

/-! ### String scalar facts used to evaluate the embedded code on
concrete inputs -/

theorem buy_eq_sell_false : (("BUY" : String) = "SELL") = False :=
  eq_false (by decide)

theorem sell_eq_buy_false : (("SELL" : String) = "BUY") = False :=
  eq_false (by decide)

theorem closedSL_eq_open_false : (("CLOSED_SL" : String) = "OPEN") = False :=
  eq_false (by decide)

theorem closedTP3_eq_open_false : (("CLOSED_TP3" : String) = "OPEN") = False :=
  eq_false (by decide)

/-! ### Frame and monotonicity lemmas for the lifecycle steps -/

theorem tradesTp1Stage_frame (t : TTrade) (p : ℚ) :
    (tradesTp1Stage t p).pair = t.pair ∧
    (tradesTp1Stage t p).direction = t.direction ∧
    (tradesTp1Stage t p).entry = t.entry ∧
    (tradesTp1Stage t p).sl = t.sl ∧
    (tradesTp1Stage t p).tp1 = t.tp1 ∧
    (tradesTp1Stage t p).tp2 = t.tp2 ∧
    (tradesTp1Stage t p).tp3 = t.tp3 ∧
    (tradesTp1Stage t p).lot = t.lot ∧
    (tradesTp1Stage t p).status = t.status ∧
    (tradesTp1Stage t p).moved_to_be = t.moved_to_be := by
  unfold tradesTp1Stage; split <;> simp

theorem tradesTp2Stage_frame (t : TTrade) (p : ℚ) :
    (tradesTp2Stage t p).pair = t.pair ∧
    (tradesTp2Stage t p).direction = t.direction ∧
    (tradesTp2Stage t p).entry = t.entry ∧
    (tradesTp2Stage t p).tp1 = t.tp1 ∧
    (tradesTp2Stage t p).tp2 = t.tp2 ∧
    (tradesTp2Stage t p).tp3 = t.tp3 ∧
    (tradesTp2Stage t p).lot = t.lot ∧
    (tradesTp2Stage t p).status = t.status ∧
    (tradesTp2Stage t p).partial_closed = t.partial_closed := by
  unfold tradesTp2Stage; split <;> simp

theorem tradesTp3Stage_frame (t : TTrade) (p : ℚ) :
    (tradesTp3Stage t p).pair = t.pair ∧
    (tradesTp3Stage t p).direction = t.direction ∧
    (tradesTp3Stage t p).entry = t.entry ∧
    (tradesTp3Stage t p).sl = t.sl ∧
    (tradesTp3Stage t p).tp1 = t.tp1 ∧
    (tradesTp3Stage t p).tp2 = t.tp2 ∧
    (tradesTp3Stage t p).tp3 = t.tp3 ∧
    (tradesTp3Stage t p).lot = t.lot ∧
    (tradesTp3Stage t p).partial_closed = t.partial_closed ∧
    (tradesTp3Stage t p).moved_to_be = t.moved_to_be := by
  unfold tradesTp3Stage; split <;> simp

theorem tradesTp2Stage_sl (t : TTrade) (p : ℚ) :
    (tradesTp2Stage t p).sl = t.sl ∨ (tradesTp2Stage t p).sl = t.entry := by
  unfold tradesTp2Stage; split <;> simp

/-- In `trades.update_trades`, a stop-loss hit on an OPEN trade only flips
the status to CLOSED_SL, skipping every target check (`continue`). -/
theorem tradesUpdateStep_slHit (t : TTrade) (p : ℚ) (hs : t.status = "OPEN")
    (hc : tradesSlCond t p) :
    tradesUpdateStep t (some p) = { t with status := "CLOSED_SL" } := by
  unfold tradesUpdateStep
  dsimp only
  rw [if_neg (by simp [hs]), if_pos hc]

theorem tradesUpdateStep_pc_mono (t : TTrade) (price : Option ℚ)
    (h : t.partial_closed = true) :
    (tradesUpdateStep t price).partial_closed = true := by
  rcases price with _ | p
  · unfold tradesUpdateStep
    split
    · exact h
    · exact h
  · unfold tradesUpdateStep
    dsimp only
    split
    · exact h
    · split
      · exact h
      · rw [(tradesTp3Stage_frame _ _).2.2.2.2.2.2.2.2.1,
          (tradesTp2Stage_frame _ _).2.2.2.2.2.2.2.2]
        unfold tradesTp1Stage; split <;> simp [h]

theorem tradesUpdateStep_mb_mono (t : TTrade) (price : Option ℚ)
    (h : t.moved_to_be = true) :
    (tradesUpdateStep t price).moved_to_be = true := by
  rcases price with _ | p
  · unfold tradesUpdateStep
    split
    · exact h
    · exact h
  · unfold tradesUpdateStep
    dsimp only
    split
    · exact h
    · split
      · exact h
      · rw [(tradesTp3Stage_frame _ _).2.2.2.2.2.2.2.2.2]
        unfold tradesTp2Stage
        split
        · simp
        · exact ((tradesTp1Stage_frame _ _).2.2.2.2.2.2.2.2.2).trans h

theorem mainHit1Stage_frame (m : MTrade) (p : ℚ) :
    (mainHit1Stage m p).Pair = m.Pair ∧
    (mainHit1Stage m p).Signal = m.Signal ∧
    (mainHit1Stage m p).Entry = m.Entry ∧
    (mainHit1Stage m p).TP1 = m.TP1 ∧
    (mainHit1Stage m p).TP2 = m.TP2 ∧
    (mainHit1Stage m p).TP3 = m.TP3 ∧
    (mainHit1Stage m p).SL = m.SL ∧
    (mainHit1Stage m p).TP2_hit = m.TP2_hit ∧
    (mainHit1Stage m p).TP3_hit = m.TP3_hit ∧
    (mainHit1Stage m p).SL_hit = m.SL_hit := by
  unfold mainHit1Stage; split <;> simp

theorem mainHit2Stage_frame (m : MTrade) (p : ℚ) :
    (mainHit2Stage m p).Pair = m.Pair ∧
    (mainHit2Stage m p).Signal = m.Signal ∧
    (mainHit2Stage m p).Entry = m.Entry ∧
    (mainHit2Stage m p).TP1 = m.TP1 ∧
    (mainHit2Stage m p).TP2 = m.TP2 ∧
    (mainHit2Stage m p).TP3 = m.TP3 ∧
    (mainHit2Stage m p).SL = m.SL ∧
    (mainHit2Stage m p).TP1_hit = m.TP1_hit ∧
    (mainHit2Stage m p).TP3_hit = m.TP3_hit ∧
    (mainHit2Stage m p).SL_hit = m.SL_hit := by
  unfold mainHit2Stage; split <;> simp

theorem mainHit3Stage_frame (m : MTrade) (p : ℚ) :
    (mainHit3Stage m p).Pair = m.Pair ∧
    (mainHit3Stage m p).Signal = m.Signal ∧
    (mainHit3Stage m p).Entry = m.Entry ∧
    (mainHit3Stage m p).TP1 = m.TP1 ∧
    (mainHit3Stage m p).TP2 = m.TP2 ∧
    (mainHit3Stage m p).TP3 = m.TP3 ∧
    (mainHit3Stage m p).SL = m.SL ∧
    (mainHit3Stage m p).TP1_hit = m.TP1_hit ∧
    (mainHit3Stage m p).TP2_hit = m.TP2_hit ∧
    (mainHit3Stage m p).SL_hit = m.SL_hit := by
  unfold mainHit3Stage; split <;> simp

theorem mainSlStage_frame (m : MTrade) (p : ℚ) :
    (mainSlStage m p).Pair = m.Pair ∧
    (mainSlStage m p).Signal = m.Signal ∧
    (mainSlStage m p).Entry = m.Entry ∧
    (mainSlStage m p).TP1 = m.TP1 ∧
    (mainSlStage m p).TP2 = m.TP2 ∧
    (mainSlStage m p).TP3 = m.TP3 ∧
    (mainSlStage m p).SL = m.SL ∧
    (mainSlStage m p).TP1_hit = m.TP1_hit ∧
    (mainSlStage m p).TP2_hit = m.TP2_hit ∧
    (mainSlStage m p).TP3_hit = m.TP3_hit := by
  unfold mainSlStage; split <;> simp

theorem checkTradesStep_tp1_mono (m : MTrade) (p : ℚ) (h : m.TP1_hit = true) :
    (checkTradesStep m p).TP1_hit = true := by
  unfold checkTradesStep
  rw [(mainSlStage_frame _ _).2.2.2.2.2.2.2.1,
    (mainHit3Stage_frame _ _).2.2.2.2.2.2.2.1,
    (mainHit2Stage_frame _ _).2.2.2.2.2.2.2.1]
  unfold mainHit1Stage; split <;> simp [h]

theorem checkTradesStep_tp2_mono (m : MTrade) (p : ℚ) (h : m.TP2_hit = true) :
    (checkTradesStep m p).TP2_hit = true := by
  unfold checkTradesStep
  rw [(mainSlStage_frame _ _).2.2.2.2.2.2.2.2.1,
    (mainHit3Stage_frame _ _).2.2.2.2.2.2.2.2.1]
  unfold mainHit2Stage
  split
  · simp
  · exact ((mainHit1Stage_frame _ _).2.2.2.2.2.2.2.1).trans h

theorem checkTradesStep_tp3_mono (m : MTrade) (p : ℚ) (h : m.TP3_hit = true) :
    (checkTradesStep m p).TP3_hit = true := by
  unfold checkTradesStep
  rw [(mainSlStage_frame _ _).2.2.2.2.2.2.2.2.2]
  unfold mainHit3Stage
  split
  · simp
  · exact ((mainHit2Stage_frame _ _).2.2.2.2.2.2.2.2.1).trans
      (((mainHit1Stage_frame _ _).2.2.2.2.2.2.2.2.1).trans h)

/-! ### Claim C1 -/

/-- C1, counterexample: `trades.open_trade` performs no duplicate check.
Opening EURUSD twice in TEST mode, with the first position still OPEN,
appends a second record: afterwards the `open_trades` list holds two
non-CLOSED positions for the same instrument, so the attempt was not
rejected as a no-op. -/
theorem C1_counterexample :
    (tradesOpenTrade 50 40 80 120 "EURUSD" "BUY" (11/10)
        (tradesOpenTrade 50 40 80 120 "EURUSD" "BUY" (11/10) [])).length = 2 ∧
    (tradesOpenTrade 50 40 80 120 "EURUSD" "BUY" (11/10)
        (tradesOpenTrade 50 40 80 120 "EURUSD" "BUY" (11/10) [])).map
      TTrade.pair = ["EURUSD", "EURUSD"] ∧
    (tradesOpenTrade 50 40 80 120 "EURUSD" "BUY" (11/10)
        (tradesOpenTrade 50 40 80 120 "EURUSD" "BUY" (11/10) [])).map
      TTrade.status = ["OPEN", "OPEN"] := by
  norm_num [tradesOpenTrade, tradesNewTrade]

/-- C1 (amended): in `main.run_bot`, an open attempt for a pair that is
already a key of `active_trades` is skipped entirely: the map — and hence
the existing position — is left unchanged, and no second record is created
(the dict holds at most one position per pair by construction). -/
theorem C1_run_bot_open_noop (active : String → Option MTrade)
    (pair signal : String) (price : ℚ) (atr : Option ℚ)
    (tp1 tp2 tp3 sl : Option ℚ) (t : MTrade) (h : active pair = some t) :
    runBotOpenAttempt active pair signal price atr tp1 tp2 tp3 sl = active ∧
    runBotOpenAttempt active pair signal price atr tp1 tp2 tp3 sl pair
      = some t := by
  have hs : (active pair).isSome = true := by rw [h]; rfl
  refine ⟨?_, ?_⟩ <;> simp [runBotOpenAttempt, hs, h]

/-- C1 witness: a map already holding an EURUSD position is untouched by a
second EURUSD open attempt. -/
theorem C1_run_bot_open_noop_witness :
    (fun q => if q = "EURUSD"
        then some (mainOpenTrade "EURUSD" "BUY" (11/10) none none none none
          none)
        else none : String → Option MTrade) "EURUSD"
      = some (mainOpenTrade "EURUSD" "BUY" (11/10) none none none none none) ∧
    runBotOpenAttempt
      (fun q => if q = "EURUSD"
        then some (mainOpenTrade "EURUSD" "BUY" (11/10) none none none none
          none)
        else none)
      "EURUSD" "SELL" (12/10) none none none none none
      = (fun q => if q = "EURUSD"
        then some (mainOpenTrade "EURUSD" "BUY" (11/10) none none none none
          none)
        else none) :=
  ⟨rfl,
   (C1_run_bot_open_noop _ "EURUSD" "SELL" (12/10) none none none none none
     (mainOpenTrade "EURUSD" "BUY" (11/10) none none none none none) rfl).1⟩

/-! ### Claim C2 -/

/-- C2: once a target index is marked reached it stays reached for the rest
of the position's lifetime, for any further price sequence (including
retracements): `trades.update_trades` only ever sets `partial_closed` and
`moved_to_be` to True, and `main.check_trades` only ever sets `TP1_hit`,
`TP2_hit`, `TP3_hit` to True. -/
theorem C2_reached_targets_monotone (t : TTrade) (ps : List (Option ℚ))
    (m : MTrade) (qs : List ℚ) :
    (t.partial_closed = true → (tradesUpdateRun t ps).partial_closed = true) ∧
    (t.moved_to_be = true → (tradesUpdateRun t ps).moved_to_be = true) ∧
    (m.TP1_hit = true → (checkTradesRun m qs).TP1_hit = true) ∧
    (m.TP2_hit = true → (checkTradesRun m qs).TP2_hit = true) ∧
    (m.TP3_hit = true → (checkTradesRun m qs).TP3_hit = true) := by
  refine ⟨?_, ?_, ?_, ?_, ?_⟩
  · intro h
    induction ps generalizing t with
    | nil => exact h
    | cons p ps ih => exact ih _ (tradesUpdateStep_pc_mono _ _ h)
  · intro h
    induction ps generalizing t with
    | nil => exact h
    | cons p ps ih => exact ih _ (tradesUpdateStep_mb_mono _ _ h)
  · intro h
    induction qs generalizing m with
    | nil => exact h
    | cons q qs ih => exact ih _ (checkTradesStep_tp1_mono _ _ h)
  · intro h
    induction qs generalizing m with
    | nil => exact h
    | cons q qs ih => exact ih _ (checkTradesStep_tp2_mono _ _ h)
  · intro h
    induction qs generalizing m with
    | nil => exact h
    | cons q qs ih => exact ih _ (checkTradesStep_tp3_mono _ _ h)

/-- C2 witness: a BUY position whose targets are marked keeps all marks
through a retracing price sequence far below every level. -/
theorem C2_reached_targets_monotone_witness :
    (tradesUpdateRun
      { pair := "EURUSD", direction := "BUY", entry := 11/10, sl := 219/200,
        tp1 := 1104/1000, tp2 := 1108/1000, tp3 := 1112/1000, lot := 1/10,
        status := "OPEN", partial_closed := true, moved_to_be := true }
      [some (1/2)]).partial_closed = true ∧
    (tradesUpdateRun
      { pair := "EURUSD", direction := "BUY", entry := 11/10, sl := 219/200,
        tp1 := 1104/1000, tp2 := 1108/1000, tp3 := 1112/1000, lot := 1/10,
        status := "OPEN", partial_closed := true, moved_to_be := true }
      [some (1/2)]).moved_to_be = true ∧
    (checkTradesRun
      { Pair := "EURUSD", Signal := "BUY", Entry := 11/10, TP1 := 1104/1000,
        TP2 := 1108/1000, TP3 := 1112/1000, SL := 219/200, TP1_hit := true,
        TP2_hit := true, TP3_hit := true, SL_hit := false }
      [1/2, 2]).TP1_hit = true ∧
    (checkTradesRun
      { Pair := "EURUSD", Signal := "BUY", Entry := 11/10, TP1 := 1104/1000,
        TP2 := 1108/1000, TP3 := 1112/1000, SL := 219/200, TP1_hit := true,
        TP2_hit := true, TP3_hit := true, SL_hit := false }
      [1/2, 2]).TP2_hit = true ∧
    (checkTradesRun
      { Pair := "EURUSD", Signal := "BUY", Entry := 11/10, TP1 := 1104/1000,
        TP2 := 1108/1000, TP3 := 1112/1000, SL := 219/200, TP1_hit := true,
        TP2_hit := true, TP3_hit := true, SL_hit := false }
      [1/2, 2]).TP3_hit = true := by
  have H := C2_reached_targets_monotone
    { pair := "EURUSD", direction := "BUY", entry := 11/10, sl := 219/200,
      tp1 := 1104/1000, tp2 := 1108/1000, tp3 := 1112/1000, lot := 1/10,
      status := "OPEN", partial_closed := true, moved_to_be := true }
    [some (1/2)]
    { Pair := "EURUSD", Signal := "BUY", Entry := 11/10, TP1 := 1104/1000,
      TP2 := 1108/1000, TP3 := 1112/1000, SL := 219/200, TP1_hit := true,
      TP2_hit := true, TP3_hit := true, SL_hit := false }
    [1/2, 2]
  exact ⟨H.1 rfl, H.2.1 rfl, H.2.2.1 rfl, H.2.2.2.1 rfl, H.2.2.2.2 rfl⟩

/-! ### Claim C3 -/

/-- C3, counterexample: in `main.check_trades` the target checks run before
the stop-loss check, with no early exit.  A position opened by
`main.open_trade` with ATR 0 (flat bars) has all three targets and the stop
at the entry price; a single update at that price marks TP1, TP2 and TP3
reached on the very update that also hits the stop — contradicting the
claim that the stop-loss check fires first and no target is marked. -/
theorem C3_counterexample :
    (checkTradesStep
      (mainOpenTrade "EURUSD" "BUY" (11/10) (some 0) none none none none)
      (11/10)).TP1_hit = true ∧
    (checkTradesStep
      (mainOpenTrade "EURUSD" "BUY" (11/10) (some 0) none none none none)
      (11/10)).TP2_hit = true ∧
    (checkTradesStep
      (mainOpenTrade "EURUSD" "BUY" (11/10) (some 0) none none none none)
      (11/10)).TP3_hit = true ∧
    (checkTradesStep
      (mainOpenTrade "EURUSD" "BUY" (11/10) (some 0) none none none none)
      (11/10)).SL_hit = true := by
  norm_num [checkTradesStep, mainOpenTrade, mainHit1Stage, mainHit2Stage,
    mainHit3Stage, mainSlStage, buy_eq_sell_false]

/-- C3 (amended): in `trades.update_trades` the stop-loss check is indeed
evaluated first and is authoritative: whenever the stop-loss condition holds
for an OPEN trade, the update closes the trade with status CLOSED_SL and
leaves every other field — in particular the target-reached flags — exactly
as they were, regardless of which target levels the same price crosses. -/
theorem C3_update_trades_sl_first (t : TTrade) (p : ℚ)
    (hs : t.status = "OPEN") (hc : tradesSlCond t p) :
    tradesUpdateStep t (some p) = { t with status := "CLOSED_SL" } :=
  tradesUpdateStep_slHit t p hs hc

/-- C3 witness: a fresh BUY trade hit below its stop closes as CLOSED_SL
with all other fields untouched. -/
theorem C3_update_trades_sl_first_witness :
    (tradesNewTrade 50 40 80 120 "EURUSD" "BUY" (11/10)).status = "OPEN" ∧
    tradesSlCond (tradesNewTrade 50 40 80 120 "EURUSD" "BUY" (11/10))
      (109/100) ∧
    tradesUpdateStep (tradesNewTrade 50 40 80 120 "EURUSD" "BUY" (11/10))
      (some (109/100))
      = { tradesNewTrade 50 40 80 120 "EURUSD" "BUY" (11/10) with
          status := "CLOSED_SL" } :=
  ⟨rfl,
   Or.inl ⟨rfl, by norm_num [tradesNewTrade]⟩,
   C3_update_trades_sl_first _ _ rfl
     (Or.inl ⟨rfl, by norm_num [tradesNewTrade]⟩)⟩

/-! ### Claim C4 -/

/-- C4, counterexample: when TP1 is first reached, `trades.update_trades`
only sets the `partial_closed` flag; the lot size is not reduced.  The
configured `PARTIAL_CLOSE_RATIO = 0.5` would demand a new lot of
`0.1 · 0.5 = 0.05`, but the lot stays `0.1`. -/
theorem C4_counterexample :
    (tradesUpdateStep (tradesNewTrade 50 40 80 120 "EURUSD" "BUY" (11/10))
      (some (1104/1000))).partial_closed = true ∧
    (tradesUpdateStep (tradesNewTrade 50 40 80 120 "EURUSD" "BUY" (11/10))
      (some (1104/1000))).lot = 1/10 ∧
    (tradesNewTrade 50 40 80 120 "EURUSD" "BUY" (11/10)).lot = 1/10 ∧
    PARTIAL_CLOSE_RATIO = 1/2 ∧
    ¬ (tradesUpdateStep (tradesNewTrade 50 40 80 120 "EURUSD" "BUY" (11/10))
        (some (1104/1000))).lot
      = (tradesNewTrade 50 40 80 120 "EURUSD" "BUY" (11/10)).lot *
          PARTIAL_CLOSE_RATIO := by
  norm_num [tradesUpdateStep, tradesNewTrade, tradesSlCond, tradesTp1Stage,
    tradesTp2Stage, tradesTp3Stage, LOT_SIZE, PARTIAL_CLOSE_RATIO,
    buy_eq_sell_false]

/-- C4 (amended): on the price update that first reaches TP1 (and does not
hit the stop), `trades.update_trades` marks the position's partial-close
stage flag, while the lot size is left unchanged — the configured
`PARTIAL_CLOSE_RATIO` is never applied. -/
theorem C4_tp1_sets_flag_keeps_lot (t : TTrade) (p : ℚ)
    (hs : t.status = "OPEN") (hns : ¬ tradesSlCond t p)
    (hpc : t.partial_closed = false)
    (h1 : (t.direction = "BUY" ∧ t.tp1 ≤ p) ∨
          (t.direction = "SELL" ∧ p ≤ t.tp1)) :
    (tradesUpdateStep t (some p)).partial_closed = true ∧
    (tradesUpdateStep t (some p)).lot = t.lot := by
  unfold tradesUpdateStep
  dsimp only
  rw [if_neg (by simp [hs]), if_neg hns]
  constructor
  · rw [(tradesTp3Stage_frame _ _).2.2.2.2.2.2.2.2.1,
      (tradesTp2Stage_frame _ _).2.2.2.2.2.2.2.2]
    unfold tradesTp1Stage
    rw [if_pos ⟨hpc, h1⟩]
  · rw [(tradesTp3Stage_frame _ _).2.2.2.2.2.2.2.1,
      (tradesTp2Stage_frame _ _).2.2.2.2.2.2.1,
      (tradesTp1Stage_frame _ _).2.2.2.2.2.2.2.1]

/-- C4 witness: a fresh BUY trade updated exactly at TP1 gets its flag set
and its lot stays at `config.LOT_SIZE`. -/
theorem C4_tp1_sets_flag_keeps_lot_witness :
    ¬ tradesSlCond (tradesNewTrade 50 40 80 120 "EURUSD" "BUY" (11/10))
      (1104/1000) ∧
    (tradesUpdateStep (tradesNewTrade 50 40 80 120 "EURUSD" "BUY" (11/10))
      (some (1104/1000))).partial_closed = true ∧
    (tradesUpdateStep (tradesNewTrade 50 40 80 120 "EURUSD" "BUY" (11/10))
      (some (1104/1000))).lot
      = (tradesNewTrade 50 40 80 120 "EURUSD" "BUY" (11/10)).lot := by
  have hns : ¬ tradesSlCond (tradesNewTrade 50 40 80 120 "EURUSD" "BUY"
      (11/10)) (1104/1000) := by
    norm_num [tradesSlCond, tradesNewTrade, buy_eq_sell_false]
  have H := C4_tp1_sets_flag_keeps_lot
    (tradesNewTrade 50 40 80 120 "EURUSD" "BUY" (11/10)) (1104/1000) rfl hns
    rfl (Or.inl ⟨rfl, by norm_num [tradesNewTrade]⟩)
  exact ⟨hns, H.1, H.2⟩

/-! ### Claim C5 -/

/-- C5, counterexample: `main.check_trades` performs no breakeven
migration.  A BUY position opened at 1.1 with ATR 0.0005 has TP2 = 1.101
and stop 1.099375; the update at 1.1011 marks TP2 reached but leaves the
stop at 1.099375 ≠ entry, and the follow-up price 1.0999 — below the entry
— neither sets `SL_hit` nor closes the position, contradicting the claimed
stop-at-entry behaviour. -/
theorem C5_counterexample :
    (checkTradesStep
      (mainOpenTrade "EURUSD" "BUY" (11/10) (some (1/2000)) none none none
        none) (11011/10000)).TP2_hit = true ∧
    (checkTradesStep
      (mainOpenTrade "EURUSD" "BUY" (11/10) (some (1/2000)) none none none
        none) (11011/10000)).SL = 1759/1600 ∧
    ¬ (checkTradesStep
        (mainOpenTrade "EURUSD" "BUY" (11/10) (some (1/2000)) none none none
          none) (11011/10000)).SL
      = (checkTradesStep
          (mainOpenTrade "EURUSD" "BUY" (11/10) (some (1/2000)) none none
            none none) (11011/10000)).Entry ∧
    (checkTradesStep
      (checkTradesStep
        (mainOpenTrade "EURUSD" "BUY" (11/10) (some (1/2000)) none none none
          none) (11011/10000)) (10999/10000)).SL_hit = false ∧
    checkTradesCloses
      (checkTradesStep
        (checkTradesStep
          (mainOpenTrade "EURUSD" "BUY" (11/10) (some (1/2000)) none none
            none none) (11011/10000)) (10999/10000)) = false := by
  norm_num [checkTradesStep, checkTradesCloses, mainOpenTrade, mainHit1Stage,
    mainHit2Stage, mainHit3Stage, mainSlStage, buy_eq_sell_false]

/-- C5 (amended): in `trades.update_trades` the claim does hold: when TP2
is reached on an OPEN trade (without the stop firing on the same update),
the stop-loss is set to the entry price and `moved_to_be` is marked,
independently of the `partial_closed` state; and once `sl = entry`, any
subsequent price at or beyond the entry in the unfavorable direction closes
the trade with status CLOSED_SL. -/
theorem C5_breakeven_migration :
    (∀ (t : TTrade) (p : ℚ), t.status = "OPEN" → ¬ tradesSlCond t p →
      t.moved_to_be = false →
      ((t.direction = "BUY" ∧ t.tp2 ≤ p) ∨
       (t.direction = "SELL" ∧ p ≤ t.tp2)) →
      (tradesUpdateStep t (some p)).sl = t.entry ∧
      (tradesUpdateStep t (some p)).moved_to_be = true) ∧
    (∀ (t : TTrade) (p : ℚ), t.status = "OPEN" → t.sl = t.entry →
      ((t.direction = "BUY" ∧ p ≤ t.entry) ∨
       (t.direction = "SELL" ∧ t.entry ≤ p)) →
      (tradesUpdateStep t (some p)).status = "CLOSED_SL") := by
  constructor
  · intro t p hs hns hmb h2
    unfold tradesUpdateStep
    dsimp only
    rw [if_neg (by simp [hs]), if_neg hns]
    have h1f := tradesTp1Stage_frame t p
    constructor
    · rw [(tradesTp3Stage_frame _ _).2.2.2.1]
      unfold tradesTp2Stage
      rw [if_pos ⟨h1f.2.2.2.2.2.2.2.2.2.trans hmb,
        by rw [h1f.2.1, h1f.2.2.2.2.2.1]; exact h2⟩]
      exact h1f.2.2.1
    · rw [(tradesTp3Stage_frame _ _).2.2.2.2.2.2.2.2.2]
      unfold tradesTp2Stage
      rw [if_pos ⟨h1f.2.2.2.2.2.2.2.2.2.trans hmb,
        by rw [h1f.2.1, h1f.2.2.2.2.2.1]; exact h2⟩]
  · intro t p hs hsl h
    have hc : tradesSlCond t p := by
      unfold tradesSlCond
      rw [hsl]
      exact h
    rw [tradesUpdateStep_slHit t p hs hc]

/-- C5 witness: Scenario B/C of the spec replayed through
`trades.update_trades`: TP2 at 1.108 moves the stop to the 1.1 entry, and
the follow-up price 1.0999 then closes the trade as CLOSED_SL. -/
theorem C5_breakeven_migration_witness :
    ¬ tradesSlCond (tradesNewTrade 50 40 80 120 "EURUSD" "BUY" (11/10))
      (1108/1000) ∧
    (tradesUpdateStep (tradesNewTrade 50 40 80 120 "EURUSD" "BUY" (11/10))
      (some (1108/1000))).sl
      = (tradesNewTrade 50 40 80 120 "EURUSD" "BUY" (11/10)).entry ∧
    (tradesUpdateStep (tradesNewTrade 50 40 80 120 "EURUSD" "BUY" (11/10))
      (some (1108/1000))).moved_to_be = true ∧
    (tradesUpdateStep
      { tradesNewTrade 50 40 80 120 "EURUSD" "BUY" (11/10) with
        sl := 11/10, moved_to_be := true }
      (some (10999/10000))).status = "CLOSED_SL" := by
  have hns : ¬ tradesSlCond (tradesNewTrade 50 40 80 120 "EURUSD" "BUY"
      (11/10)) (1108/1000) := by
    norm_num [tradesSlCond, tradesNewTrade, buy_eq_sell_false]
  have H1 := C5_breakeven_migration.1
    (tradesNewTrade 50 40 80 120 "EURUSD" "BUY" (11/10)) (1108/1000) rfl hns
    rfl (Or.inl ⟨rfl, by norm_num [tradesNewTrade]⟩)
  have H2 := C5_breakeven_migration.2
    { tradesNewTrade 50 40 80 120 "EURUSD" "BUY" (11/10) with
      sl := 11/10, moved_to_be := true }
    (10999/10000) rfl (by norm_num [tradesNewTrade])
    (Or.inl ⟨rfl, by norm_num [tradesNewTrade]⟩)
  exact ⟨hns, H1.1, H1.2, H2⟩

/-! ### Claim C6 -/

/-- C6, counterexample: `trades.open_trade` scales its (single, FOREX-wide)
TP/SL table by the flat constant 0.0001 for every pair.  For USDJPY — a
JPY-quoted pair whose pip unit is 0.01 per `main.detect_pip_unit` — the
stop lands at `150 - 40·0.0001 = 149.996` instead of the pip-correct
`150 - 40·0.01 = 149.6`. -/
theorem C6_counterexample :
    (tradesNewTrade 40 30 60 90 "USDJPY" "BUY" 150).sl
      = 150 - 40 * (1/10000) ∧
    detect_pip_unit "USDJPY" = (1/100, 100) ∧
    ¬ (tradesNewTrade 40 30 60 90 "USDJPY" "BUY" 150).sl
      = 150 - 40 * (1/100) := by
  refine ⟨by norm_num [tradesNewTrade], rfl, ?_⟩
  norm_num [tradesNewTrade]

/-- C6 (amended): in `main.open_trade`, when no ATR is available the target
and stop levels are the per-pair TP/SL pip counts scaled by the pair's pip
unit, and that pip unit is 0.01 for JPY-quoted pairs, 0.1 for gold, and
0.0001 otherwise (`main.detect_pip_unit` agrees); `trades.open_trade`
instead applies the flat 0.0001 scaling to every pair. -/
theorem C6_pip_unit_scaling :
    (∀ (pair : String) (price t1 t2 t3 s : ℚ),
      (mainOpenTrade pair "BUY" price none (some t1) (some t2) (some t3)
        (some s)).TP1 = price + t1 * mainPipUnit pair ∧
      (mainOpenTrade pair "BUY" price none (some t1) (some t2) (some t3)
        (some s)).TP2 = price + t2 * mainPipUnit pair ∧
      (mainOpenTrade pair "BUY" price none (some t1) (some t2) (some t3)
        (some s)).TP3 = price + t3 * mainPipUnit pair ∧
      (mainOpenTrade pair "BUY" price none (some t1) (some t2) (some t3)
        (some s)).SL = price - s * mainPipUnit pair) ∧
    (∀ (pair : String) (price t1 t2 t3 s : ℚ),
      (mainOpenTrade pair "SELL" price none (some t1) (some t2) (some t3)
        (some s)).TP1 = price - t1 * mainPipUnit pair ∧
      (mainOpenTrade pair "SELL" price none (some t1) (some t2) (some t3)
        (some s)).TP2 = price - t2 * mainPipUnit pair ∧
      (mainOpenTrade pair "SELL" price none (some t1) (some t2) (some t3)
        (some s)).TP3 = price - t3 * mainPipUnit pair ∧
      (mainOpenTrade pair "SELL" price none (some t1) (some t2) (some t3)
        (some s)).SL = price + s * mainPipUnit pair) ∧
    (mainPipUnit "USDJPY" = 1/100 ∧ mainPipUnit "XAUUSD" = 1/10 ∧
      mainPipUnit "EURUSD" = 1/10000 ∧ mainPipUnit "USDCAD" = 1/10000 ∧
      mainPipUnit "GBPUSD" = 1/10000) ∧
    (detect_pip_unit "USDJPY" = (1/100, 100) ∧
      detect_pip_unit "XAUUSD" = (1/10, 10) ∧
      detect_pip_unit "EURUSD" = (1/10000, 10000) ∧
      detect_pip_unit "USDCAD" = (1/10000, 10000) ∧
      detect_pip_unit "GBPUSD" = (1/10000, 10000)) := by
  refine ⟨?_, ?_, ⟨rfl, rfl, rfl, rfl, rfl⟩, ⟨rfl, rfl, rfl, rfl, rfl⟩⟩
  · intro pair price t1 t2 t3 s
    refine ⟨?_, ?_, ?_, ?_⟩ <;> simp [mainOpenTrade]
  · intro pair price t1 t2 t3 s
    refine ⟨?_, ?_, ?_, ?_⟩ <;> simp [mainOpenTrade, sell_eq_buy_false]

/-! ### Claim C7 -/

/-- C7, counterexample: at entry 1.10000 BUY with volatility 0.00050,
`main.open_trade` produces TP2 = 1.10100 and stop 1.099375, not the claimed
T2 = 1.10075 and stop 1.099665: the volatility multipliers are `[1, 2, 3]`
with stop multiplier 1.25, not `[1, 1.5, 2]` with 0.67. -/
theorem C7_counterexample :
    (mainOpenTrade "EURUSD" "BUY" (11/10) (some (1/2000)) none none none
      none).TP2 = 1101/1000 ∧
    ¬ (1101/1000 : ℚ) = 110075/100000 ∧
    (mainOpenTrade "EURUSD" "BUY" (11/10) (some (1/2000)) none none none
      none).SL = 1759/1600 ∧
    ¬ (1759/1600 : ℚ) = 1099665/1000000 := by
  norm_num [mainOpenTrade]

/-- C7 (amended): with volatility `a` available, `main.open_trade` places
the three targets at `entry ± k·a` for `k = 1, 2, 3` — strictly increasing
multipliers — and the stop at `entry ∓ 1.25·a`; `backtest.backtest_pair`
places a single target at `entry ± 1·a` and the stop at `entry ∓ 0.67·a`.
At entry 1.1 BUY with `a = 0.0005` this gives targets
`[1.1005, 1.101, 1.1015]` with stop 1.099375 (main) and target 1.1005 with
stop 1.099665 (backtest). -/
theorem C7_volatility_targets :
    (∀ (pair : String) (e a : ℚ),
      (mainOpenTrade pair "BUY" e (some a) none none none none).TP1
        = e + a ∧
      (mainOpenTrade pair "BUY" e (some a) none none none none).TP2
        = e + a * 2 ∧
      (mainOpenTrade pair "BUY" e (some a) none none none none).TP3
        = e + a * 3 ∧
      (mainOpenTrade pair "BUY" e (some a) none none none none).SL
        = e - a * (5/4)) ∧
    (∀ (pair : String) (e a : ℚ),
      (mainOpenTrade pair "SELL" e (some a) none none none none).TP1
        = e - a ∧
      (mainOpenTrade pair "SELL" e (some a) none none none none).TP2
        = e - a * 2 ∧
      (mainOpenTrade pair "SELL" e (some a) none none none none).TP3
        = e - a * 3 ∧
      (mainOpenTrade pair "SELL" e (some a) none none none none).SL
        = e + a * (5/4)) ∧
    ((1:ℚ) < 2 ∧ (2:ℚ) < 3) ∧
    ((mainOpenTrade "EURUSD" "BUY" (11/10) (some (1/2000)) none none none
        none).TP1 = 2201/2000 ∧
      (mainOpenTrade "EURUSD" "BUY" (11/10) (some (1/2000)) none none none
        none).TP2 = 1101/1000 ∧
      (mainOpenTrade "EURUSD" "BUY" (11/10) (some (1/2000)) none none none
        none).TP3 = 2203/2000 ∧
      (mainOpenTrade "EURUSD" "BUY" (11/10) (some (1/2000)) none none none
        none).SL = 1759/1600) ∧
    (∀ (e a : ℚ),
      backtestTpSl e "BUY" a = (e + tp_atr_mult * a, e - sl_atr_mult * a) ∧
      backtestTpSl e "SELL" a
        = (e - tp_atr_mult * a, e + sl_atr_mult * a)) ∧
    backtestTpSl (11/10) "BUY" (1/2000) = (2201/2000, 1099665/1000000) := by
  refine ⟨?_, ?_, by norm_num, by norm_num [mainOpenTrade], ?_, ?_⟩
  · intro pair e a
    refine ⟨?_, ?_, ?_, ?_⟩ <;> simp [mainOpenTrade]
  · intro pair e a
    refine ⟨?_, ?_, ?_, ?_⟩ <;> simp [mainOpenTrade, sell_eq_buy_false]
  · intro e a
    constructor <;> simp [backtestTpSl, sell_eq_buy_false]
  · norm_num [backtestTpSl, tp_atr_mult, sl_atr_mult]

/-! ### Claim C10 -/

/-- C10: `trades.update_trades` never changes `pair`, `direction`, `entry`,
`tp1`, `tp2`, `tp3` (or `lot`) of a trade, and the only value it ever
assigns to `sl` is the trade's own entry price (breakeven migration) — for
every trade record and every (possibly missing) price. -/
theorem C10_update_trades_frame (t : TTrade) (price : Option ℚ) :
    (tradesUpdateStep t price).pair = t.pair ∧
    (tradesUpdateStep t price).direction = t.direction ∧
    (tradesUpdateStep t price).entry = t.entry ∧
    (tradesUpdateStep t price).tp1 = t.tp1 ∧
    (tradesUpdateStep t price).tp2 = t.tp2 ∧
    (tradesUpdateStep t price).tp3 = t.tp3 ∧
    (tradesUpdateStep t price).lot = t.lot ∧
    ((tradesUpdateStep t price).sl = t.sl ∨
     (tradesUpdateStep t price).sl = t.entry) := by
  rcases price with _ | p
  · unfold tradesUpdateStep
    split
    · exact ⟨rfl, rfl, rfl, rfl, rfl, rfl, rfl, Or.inl rfl⟩
    · exact ⟨rfl, rfl, rfl, rfl, rfl, rfl, rfl, Or.inl rfl⟩
  · unfold tradesUpdateStep
    dsimp only
    split
    · exact ⟨rfl, rfl, rfl, rfl, rfl, rfl, rfl, Or.inl rfl⟩
    · split
      · exact ⟨rfl, rfl, rfl, rfl, rfl, rfl, rfl, Or.inl rfl⟩
      · have h1 := tradesTp1Stage_frame t p
        have h2 := tradesTp2Stage_frame (tradesTp1Stage t p) p
        have h3 := tradesTp3Stage_frame
          (tradesTp2Stage (tradesTp1Stage t p) p) p
        have hsl2 := tradesTp2Stage_sl (tradesTp1Stage t p) p
        refine ⟨?_, ?_, ?_, ?_, ?_, ?_, ?_, ?_⟩
        · rw [h3.1, h2.1, h1.1]
        · rw [h3.2.1, h2.2.1, h1.2.1]
        · rw [h3.2.2.1, h2.2.2.1, h1.2.2.1]
        · rw [h3.2.2.2.2.1, h2.2.2.2.1, h1.2.2.2.2.1]
        · rw [h3.2.2.2.2.2.1, h2.2.2.2.2.1, h1.2.2.2.2.2.1]
        · rw [h3.2.2.2.2.2.2.1, h2.2.2.2.2.2.1, h1.2.2.2.2.2.2.1]
        · rw [h3.2.2.2.2.2.2.2.1, h2.2.2.2.2.2.2.1, h1.2.2.2.2.2.2.2.1]
        · rcases hsl2 with h | h
          · rw [h3.2.2.2.1, h, h1.2.2.2.1]
            exact Or.inl rfl
          · rw [h3.2.2.2.1, h, h1.2.2.1]
            exact Or.inr rfl

/-! ### Claim C8 -/

/-- C8, counterexample: there is no safety margin above the
`max(EMA_SLOW, RSI_PERIOD)` cutoff.  Fourteen strictly increasing closes —
a sequence shorter than the cutoff plus any positive margin — already make
`signals.generate_signal` emit BUY (the phantom first delta is coerced to 0
by `where`, so the oscillator is defined at exactly 14 bars). -/
theorem C8_counterexample :
    signalsGenerateSignal [1,2,3,4,5,6,7,8,9,10,11,12,13,14] = some "BUY" ∧
    ([1,2,3,4,5,6,7,8,9,10,11,12,13,14] : List ℚ).length
      = max EMA_SLOW RSI_PERIOD := by
  constructor
  · norm_num [signalsGenerateSignal, ewmaFold, signalsRsiLast,
      signalsRollGain, signalsRollLoss, rollingMeanLastQ, signalsGain,
      signalsLoss, deltasOf, optGtB, optLtB, EMA_FAST, EMA_SLOW, RSI_PERIOD]
  · rfl

/-- C8 (amended): for every close series shorter than
`max(EMA_SLOW, RSI_PERIOD)` bars (with no extra margin), both
`signals.generate_signal` (explicit length gate) and `main.generate_signal`
(length gate plus NaN propagation through the 14-bar RSI window) return
`None` and never a directional signal. -/
theorem C8_short_window_unavailable (closes : List ℚ)
    (h : closes.length < max EMA_SLOW RSI_PERIOD) :
    signalsGenerateSignal closes = none ∧
    mainGenerateSignal closes = none := by
  have h14 : closes.length < 14 := by
    simpa [EMA_SLOW, RSI_PERIOD] using h
  constructor
  · unfold signalsGenerateSignal
    rw [if_pos h]
  · by_cases h7 : closes.length < REQUIRED_SUSTAINED_CANDLES + 5
    · unfold mainGenerateSignal
      rw [if_pos h7]
    · have hlen : (mainUp closes).length < RSI_PERIOD := by
        simp only [mainUp, deltasOf, List.length_map, List.length_cons,
          List.length_zipWith, List.length_tail, RSI_PERIOD]
        omega
      have hup : mainRollUp closes = none := by
        unfold mainRollUp rollingMeanLast
        rw [if_pos hlen]
      have hr : mainRsiLast closes = none := by
        unfold mainRsiLast
        rw [hup]
      unfold mainGenerateSignal
      rw [if_neg h7]
      simp [hr, optLtB, optGtB]

/-- C8 witness: the empty bar sequence yields no snapshot and no signal
from either implementation. -/
theorem C8_short_window_unavailable_witness :
    ([] : List ℚ).length < max EMA_SLOW RSI_PERIOD ∧
    signalsGenerateSignal ([] : List ℚ) = none ∧
    mainGenerateSignal ([] : List ℚ) = none :=
  ⟨by decide,
   (C8_short_window_unavailable [] (by decide)).1,
   (C8_short_window_unavailable [] (by decide)).2⟩

/-! ### Claim C9 -/

/-- C9, counterexample: `backtest.compute_indicators` maps a zero average
downward delta to NaN, not to a bullish-saturated value near 100.  On
fifteen strictly increasing closes the smoothed average gain is 1 and the
smoothed average loss is 0, and `avg_loss.replace(0, nan)` makes the RSI
cell NaN (`none`). -/
theorem C9_counterexample :
    backtestAvgGainLast [1,2,3,4,5,6,7,8,9,10,11,12,13,14,15] = some 1 ∧
    backtestAvgLossLast [1,2,3,4,5,6,7,8,9,10,11,12,13,14,15] = some 0 ∧
    backtestRsiLast [1,2,3,4,5,6,7,8,9,10,11,12,13,14,15] = none := by
  norm_num [backtestRsiLast, backtestAvgGainLast, backtestAvgLossLast,
    ewmNanLast, mainUp, mainDown, deltasOf, RSI_PERIOD]

/-- C9 (amended): neither RSI computation can raise a division error, and
when the average downward delta is zero while the average upward delta is
positive, `signals.calculate_rsi` saturates to exactly 100 (IEEE
`gain/0 = +inf`), while `main.fetch_data`'s `1e-8` guard produces
`100 - 100/(1 + avgUp·10⁸)`, which exceeds 99 for any avgUp of at least one
pip-like magnitude 10⁻⁴; `backtest.compute_indicators`, by contrast,
deliberately yields NaN (see the counterexample). -/
theorem C9_rsi_zero_down_guard :
    (∀ (closes : List ℚ) (g : ℚ), signalsRollGain closes = some g → 0 < g →
      signalsRollLoss closes = some 0 → signalsRsiLast closes = some 100) ∧
    (∀ (closes : List ℚ) (u : ℚ), mainRollUp closes = some u →
      mainRollDown closes = some 0 →
      mainRsiLast closes = some (100 - 100 / (1 + u * 100000000)) ∧
      (1/10000 ≤ u → (99:ℚ) < 100 - 100 / (1 + u * 100000000))) := by
  constructor
  · intro closes g hg hpos hl
    unfold signalsRsiLast
    rw [hg, hl]
    simp [hpos]
  · intro closes u hu hd
    constructor
    · unfold mainRsiLast
      rw [hu, hd]
      dsimp only
      have : u / ((0:ℚ) + 1/100000000) = u * 100000000 := by
        rw [zero_add, one_div, div_eq_mul_inv, inv_inv]
      rw [this]
    · intro hge
      have hpos : (0:ℚ) < 1 + u * 100000000 := by nlinarith
      have hlt : 100 / (1 + u * 100000000) < 1 := by
        rw [div_lt_one hpos]
        nlinarith
      linarith

/-- C9 witness: fourteen increasing closes give `signals.calculate_rsi`
exactly 100; fifteen increasing closes give `main.fetch_data`'s RSI
`100 - 100/(1 + 10⁸)`, within the saturated band. -/
theorem C9_rsi_zero_down_guard_witness :
    signalsRsiLast [1,2,3,4,5,6,7,8,9,10,11,12,13,14] = some 100 ∧
    mainRsiLast [1,2,3,4,5,6,7,8,9,10,11,12,13,14,15]
      = some (100 - 100 / (1 + 1 * 100000000)) ∧
    (99:ℚ) < 100 - 100 / (1 + 1 * 100000000) := by
  have H1 := C9_rsi_zero_down_guard.1 [1,2,3,4,5,6,7,8,9,10,11,12,13,14]
    (13/14)
    (by norm_num [signalsRollGain, rollingMeanLastQ, signalsGain, deltasOf,
      RSI_PERIOD])
    (by norm_num)
    (by norm_num [signalsRollLoss, rollingMeanLastQ, signalsLoss, deltasOf,
      RSI_PERIOD])
  have H2 := C9_rsi_zero_down_guard.2 [1,2,3,4,5,6,7,8,9,10,11,12,13,14,15] 1
    (by norm_num [mainRollUp, rollingMeanLast, mainUp, deltasOf, RSI_PERIOD,
      List.reduceOption, List.filterMap])
    (by norm_num [mainRollDown, rollingMeanLast, mainDown, deltasOf,
      RSI_PERIOD, List.reduceOption, List.filterMap])
  exact ⟨H1, H2.1, H2.2 (by norm_num)⟩

end SignalBot
